import Mathlib

/-!
A shallow embedding of the RoutineFlow timer application (files
`js/app.js`, `js/storage.js` and the timer-engine module) together with
proofs about the behaviour of its timer execution engine and duration
codec.

Modelling conventions:
* JavaScript numbers that hold epoch milliseconds or durations are
  modelled as `Int` (the code only ever produces integers for them).
* `Date.now()` is passed explicitly as a `now : Int` argument to every
  operation that reads the clock; all reads of the clock inside one
  synchronous entry point see the same value.
* The module-level mutable variables of the timer engine
  (`activeGroup`, `currentTaskIndex`, `timerInterval`, `isPaused`,
  `startTime`, `taskDurationMs`, `remainingTimeMs`), the in-memory group
  catalog of `storage.js` and the persisted timer checkpoint
  (`localStorage` key `routineFlowTimerState`) are gathered into one
  `EngineState` record.  `timerInterval` is a `Bool`: whether a polling
  interval is currently scheduled.
* Outward calls (`updateTimerDisplay`, `window.updateTimerTime`,
  `window.sendTaskNotification`, `handleRoutineComplete`) are recorded
  as an append-only `events` trace.  Wake-lock calls are best-effort
  no-ops with no observable state and are not modelled.
* An operation that can hit an uncaught JavaScript `TypeError`
  (reading a property of `undefined`/`null`) returns an `Option`,
  `none` marking the throw.
* The `activeGroup` variable distinguishes JavaScript `null` (its
  initial value and what `stopTimer` assigns) from `undefined` (what a
  missed `groups.find` returns): both are falsy, but `stopTimer`'s
  `wasActive` test `activeGroup !== null` tells them apart, so the model
  keeps them apart in `GroupRef`.
-/

namespace RoutineFlow

/-- Pads a string on the left with the character `0` to length 2,
modelling JavaScript `String.prototype.padStart(2, '0')`. -/
def padStart2 (s : String) : String :=
  if s.length < 2 then String.mk (List.replicate (2 - s.length) '0') ++ s else s

/-- Models JavaScript `String(n)` for an integer-valued number. -/
def jsIntToString (i : Int) : String :=
  if i < 0 then "-" ++ Nat.repr i.natAbs else Nat.repr i.toNat

/-- Value of a list of decimal digit characters. -/
def digitsVal (cs : List Char) : Nat :=
  cs.foldl (fun a c => a * 10 + (c.toNat - 48)) 0

/-- Models JavaScript `Number(s)` on the codec's value domain:
the empty string converts to `0`, a string of decimal digits (optionally
preceded by a minus sign) converts to the corresponding integer, and any
other string yields `NaN`, modelled as `none`.  (Fractional, hexadecimal
and exponent literals are outside the duration codec's valid `HH:MM:SS`
domain and are conservatively mapped to `none` as well.) -/
def jsNumber (s : String) : Option Int :=
  match s.toList with
  | [] => some 0
  | c :: cs =>
    if (c :: cs).all Char.isDigit then some (digitsVal (c :: cs) : Nat)
    else if c = '-' ∧ cs ≠ [] ∧ cs.all Char.isDigit then some (-(digitsVal cs : Nat))
    else none

/-- Splits a list of characters at every occurrence of `sep`, keeping
empty pieces, exactly as JavaScript `split` with a one-character
separator does. -/
def splitChars (sep : Char) : List Char → List (List Char)
  | [] => [[]]
  | c :: cs =>
    let r := splitChars sep cs
    if c = sep then [] :: r
    else
      match r with
      | [] => [[c]]
      | w :: ws => (c :: w) :: ws

/-- Models JavaScript `s.split(sep)` for a one-character separator. -/
def jsSplit (s : String) (sep : Char) : List String :=
  (splitChars sep s.toList).map String.mk

/-- Models the JavaScript expression `parts[k] || 0`, where `parts[k]`
may be `undefined` (outer `none`: index out of range) or `NaN` (inner
`none`); both are falsy and give `0`, as does an actual `0`. -/
def jsOrZero (x : Option (Option Int)) : Int :=
  match x with
  | some (some v) => v
  | _ => 0

/-- `timeToMs` from `js/app.js`: converts an `HH:MM:SS` string to
milliseconds.  `const parts = timeStr.split(':').map(Number);
const h = parts[0] || 0; const m = parts[1] || 0; const s = parts[2] || 0;
return (h * 3600 + m * 60 + s) * 1000;` -/
def timeToMs (timeStr : String) : Int :=
  let parts := (jsSplit timeStr ':').map jsNumber
  let h := jsOrZero parts[0]?
  let m := jsOrZero parts[1]?
  let s := jsOrZero parts[2]?
  (h * 3600 + m * 60 + s) * 1000

/-- `msToTime` from `js/app.js`: converts milliseconds to a zero-padded
`HH:MM:SS` string.  `Math.round(ms / 1000)` is floor of `ms/1000 + 1/2`,
i.e. `(ms + 500).fdiv 1000`; `Math.floor` of a real quotient is `Int.fdiv`
and the JavaScript `%` operator is `Int.tmod` (sign of the dividend). -/
def msToTime (ms : Int) : String :=
  let totalSeconds := (ms + 500).fdiv 1000
  let h := padStart2 (jsIntToString (totalSeconds.fdiv 3600))
  let m := padStart2 (jsIntToString ((totalSeconds.tmod 3600).fdiv 60))
  let s := padStart2 (jsIntToString (totalSeconds.tmod 60))
  h ++ ":" ++ m ++ ":" ++ s

/-- Modelled from the spec: the zero-padded `HH:MM:SS` rendering of a
total number of seconds, against which the codec round-trip is compared
("the zero-padded HH:MM:SS normalization of the same total seconds"). -/
def specNormalize (totalSeconds : Nat) : String :=
  padStart2 (Nat.repr (totalSeconds / 3600)) ++ ":" ++
    padStart2 (Nat.repr (totalSeconds % 3600 / 60)) ++ ":" ++
    padStart2 (Nat.repr (totalSeconds % 60))

/-- A task of a group (`{ name, duration, notify, icon }` in the data
model of `app.js`/`storage.js`); `duration` is the `HH:MM:SS` text and
`notify` is one of the strings `none`, `start`, `end`, `both`. -/
structure Task where
  name : String
  duration : String
  notify : String
  icon : String
deriving DecidableEq

/-- A group: a named ordered list of tasks, identified by `id`. -/
structure Group where
  id : String
  name : String
  color : String
  tasks : List Task
deriving DecidableEq

/-- The JavaScript value held by the engine's `activeGroup` variable:
`null` (its initial value, and what `stopTimer` resets it to),
`undefined` (what `groups.find(...)` returns on a miss, assigned by a
failed `startTimer`/`recoverTimer` lookup), or an actual group.  Both
`null` and `undefined` are falsy, so `!activeGroup` is true for both,
but only `null` satisfies `activeGroup !== null` being false — the
distinction `stopTimer` tests. -/
inductive GroupRef where
  | null
  | undef
  | grp (g : Group)
deriving DecidableEq

/-- The value `activeGroup` receives from a `getGroupById` call: the
found group, or JavaScript `undefined` on a miss. -/
def GroupRef.ofFind : Option Group → GroupRef
  | none => GroupRef.undef
  | some g => GroupRef.grp g

/-- Whether `activeGroup` holds an actual group (is truthy). -/
def GroupRef.isGrp : GroupRef → Bool
  | GroupRef.grp _ => true
  | _ => false

/-- The persisted timer checkpoint, exactly the object literal written by
`saveTimerState` in the engine: `{ groupId, taskIndex, paused, remaining,
taskDuration, lastTick }`. -/
structure Checkpoint where
  groupId : String
  taskIndex : Nat
  paused : Bool
  remaining : Int
  taskDuration : Int
  lastTick : Int
deriving DecidableEq

/-- Outward-observable calls made by the engine, in program order. -/
inductive Event where
  /-- `updateTimerDisplay(currentTask, activeGroup.name, currentTaskIndex + 1)` -/
  | displayTask (task : Task) (groupName : String) (taskNumber : Nat)
  /-- `window.sendTaskNotification(taskName, phase)` with phase `"start"` or `"end"` -/
  | notifyTask (taskName : String) (phase : String)
  /-- `window.updateTimerTime(remainingTimeMs, taskDurationMs)` -/
  | tickUpdate (remainingMs : Int) (totalMs : Int)
  /-- `handleRoutineComplete(finished)` -/
  | routineEnded (finished : Bool)
deriving DecidableEq

/-- The complete mutable state the engine code can reach: the catalog
of `storage.js` (`groups`), the engine module's own variables, the
persisted checkpoint and the trace of outward calls. -/
structure EngineState where
  catalog : List Group
  activeGroup : GroupRef
  currentTaskIndex : Nat
  timerInterval : Bool
  isPaused : Bool
  startTime : Int
  taskDurationMs : Int
  remainingTimeMs : Int
  checkpoint : Option Checkpoint
  events : List Event
deriving DecidableEq

/-- `getGroupById` from `js/storage.js`: `groups.find(g => g.id === groupId)`. -/
def getGroupById (catalog : List Group) (groupId : String) : Option Group :=
  catalog.find? (fun g => g.id == groupId)

/-- The state at boot with a given catalog: no active session, no
polling, no checkpoint, default numeric fields. -/
def idleState (catalog : List Group) : EngineState :=
  { catalog := catalog
    activeGroup := GroupRef.null
    currentTaskIndex := 0
    timerInterval := false
    isPaused := false
    startTime := 0
    taskDurationMs := 0
    remainingTimeMs := 0
    checkpoint := none
    events := [] }

/-- `stopTimer` from the timer-engine module: cancels polling, releases
the wake lock (not modelled), clears the persisted checkpoint, resets the
session fields, and reports completion outward via
`handleRoutineComplete(finished)` when `wasActive`, computed as
`activeGroup !== null` — which is also true of the `undefined` left in
`activeGroup` by a failed lookup, not only of an actual group. -/
def stopTimer (finished : Bool) (st : EngineState) : EngineState :=
  let wasActive := st.activeGroup ≠ GroupRef.null
  { st with
    timerInterval := false
    checkpoint := none
    activeGroup := GroupRef.null
    currentTaskIndex := 0
    isPaused := false
    events := st.events ++ (if wasActive then [Event.routineEnded finished] else []) }

/-- `processTask` from the timer-engine module: if there is no active
group or the index is past the end, stop with `finished = true`;
otherwise load the current task, reset `taskDurationMs`, `remainingTimeMs`
and `startTime`, clear `isPaused`, update the display, send a start
notification when the task's policy asks for one, and (re)start the
polling interval.  The `tasks[currentTaskIndex]` access happens only
after the bounds check, so the `none` branch of `get?` is unreachable. -/
def processTask (now : Int) (st : EngineState) : EngineState :=
  match st.activeGroup with
  | GroupRef.grp g =>
    if st.currentTaskIndex ≥ g.tasks.length then stopTimer true st
    else
      match g.tasks[st.currentTaskIndex]? with
      | none => st
      | some t =>
        let d := timeToMs t.duration
        { st with
          taskDurationMs := d
          remainingTimeMs := d
          startTime := now
          isPaused := false
          events := st.events ++
            [Event.displayTask t g.name (st.currentTaskIndex + 1)] ++
            (if t.notify == "start" || t.notify == "both" then
              [Event.notifyTask t.name "start"] else [])
          timerInterval := true }
  | _ => stopTimer true st

/-- `timerTick` from the timer-engine module: a no-op while paused or
without an active group; otherwise recomputes the remaining time from
timestamps, updates the display, writes a checkpoint, and on reaching
zero cancels polling, sends the end notification when asked for,
advances the index and processes the next task.  When the index is out
of range for the active group, `activeGroup.tasks[currentTaskIndex]` is
`undefined` and reading `.notify` from it throws a `TypeError`,
modelled as `none`. -/
def timerTick (now : Int) (st : EngineState) : Option EngineState :=
  match st.activeGroup with
  | GroupRef.grp g =>
    if st.isPaused then some st
    else
      let elapsed := now - st.startTime
      let remaining := max 0 (st.taskDurationMs - elapsed)
      let st1 := { st with
        remainingTimeMs := remaining
        events := st.events ++ [Event.tickUpdate remaining st.taskDurationMs]
        checkpoint := some
          { groupId := g.id
            taskIndex := st.currentTaskIndex
            paused := false
            remaining := remaining
            taskDuration := st.taskDurationMs
            lastTick := now } }
      if remaining = 0 then
        let st2 := { st1 with timerInterval := false }
        match g.tasks[st.currentTaskIndex]? with
        | none => none
        | some t =>
          some (processTask now
            { st2 with
              events := st2.events ++
                (if t.notify == "end" || t.notify == "both" then
                  [Event.notifyTask t.name "end"] else [])
              currentTaskIndex := st.currentTaskIndex + 1 })
      else some st1
  | _ => some st

/-- `startTimer` from the timer-engine module: overwrites `activeGroup`
with the catalog lookup and resets `currentTaskIndex` and `isPaused`
before validating; on a missing or empty group it logs and returns,
otherwise it requests the wake lock (not modelled) and processes the
first task. -/
def startTimer (groupId : String) (now : Int) (st : EngineState) : EngineState :=
  let st1 := { st with
    activeGroup := GroupRef.ofFind (getGroupById st.catalog groupId)
    currentTaskIndex := 0
    isPaused := false }
  match st1.activeGroup with
  | GroupRef.grp g => if g.tasks.length = 0 then st1 else processTask now st1
  | _ => st1

/-- `togglePause` from the timer-engine module: flips `isPaused`; on
resume it re-derives `startTime` as `now - (taskDurationMs -
remainingTimeMs)` and restarts polling, on pause it cancels polling;
then it saves a checkpoint reading `activeGroup.id` — when `activeGroup`
is `null` that read throws a `TypeError`, modelled as `none`.  Returns
the new `isPaused` value. -/
def togglePause (now : Int) (st : EngineState) : Option (Bool × EngineState) :=
  let p := !st.isPaused
  let st1 :=
    if p = false then
      { st with
        isPaused := p
        startTime := now - (st.taskDurationMs - st.remainingTimeMs)
        timerInterval := true }
    else { st with isPaused := p, timerInterval := false }
  match st1.activeGroup with
  | GroupRef.grp g =>
    some (p, { st1 with
      checkpoint := some
        { groupId := g.id
          taskIndex := st1.currentTaskIndex
          paused := p
          remaining := st1.remainingTimeMs
          taskDuration := st1.taskDurationMs
          lastTick := now } })
  | _ => none

/-- `skipTask` from the timer-engine module: a no-op without an active
group; otherwise cancels polling, advances the index and processes the
next task. -/
def skipTask (now : Int) (st : EngineState) : EngineState :=
  match st.activeGroup with
  | GroupRef.grp _ =>
    processTask now
      { st with timerInterval := false, currentTaskIndex := st.currentTaskIndex + 1 }
  | _ => st

/-- `recoverTimer` from the timer-engine module: resolves the
checkpoint's group (clearing the checkpoint and failing when missing),
resolves the task index (clearing the checkpoint and failing when out of
range — note `activeGroup` keeps the resolved group in that branch),
restores the session fields verbatim, updates the display, and when not
paused deducts the time elapsed since `lastTick` from the remaining time
(floored at zero), re-derives `startTime` and resumes polling. -/
def recoverTimer (state : Checkpoint) (now : Int) (st : EngineState) : Bool × EngineState :=
  match getGroupById st.catalog state.groupId with
  | none => (false, { st with activeGroup := GroupRef.undef, checkpoint := none })
  | some g =>
    match g.tasks[state.taskIndex]? with
    | none => (false, { st with activeGroup := GroupRef.grp g, checkpoint := none })
    | some t =>
      let st1 := { st with
        activeGroup := GroupRef.grp g
        currentTaskIndex := state.taskIndex
        taskDurationMs := state.taskDuration
        remainingTimeMs := state.remaining
        isPaused := state.paused
        events := st.events ++
          [Event.displayTask t g.name (state.taskIndex + 1),
           Event.tickUpdate state.remaining state.taskDuration] }
      if state.paused then (true, st1)
      else
        let remaining := max 0 (state.remaining - (now - state.lastTick))
        (true, { st1 with
          remainingTimeMs := remaining
          startTime := now - (state.taskDuration - remaining)
          timerInterval := true })

/-- Runs one `timerTick` per listed time, in order, propagating a
thrown `TypeError` (`none`). -/
def runSchedule : List Int → EngineState → Option EngineState
  | [], st => some st
  | n :: ns, st => (timerTick n st).bind (runSchedule ns)

/-- `schedOk s tasks ns`: the tick times `ns` drive each task of
`tasks` to completion — one tick per task, each landing at or after the
moment its task's duration has fully elapsed (the task starts when the
previous tick fired, the first one at `s`). -/
def schedOk (s : Int) : List Task → List Int → Bool
  | [], [] => true
  | t :: rest, n :: ns => decide (s + timeToMs t.duration ≤ n) && schedOk n rest ns
  | _, _ => false

/-- The events `processTask` emits when it begins task `t` at position
`i` of a group named `gname`. -/
def beginEvents (gname : String) (i : Nat) (t : Task) : List Event :=
  [Event.displayTask t gname (i + 1)] ++
    (if t.notify == "start" || t.notify == "both" then
      [Event.notifyTask t.name "start"] else [])

/-- The events the completing tick of task `t` emits: the final display
update at zero remaining, then the end notification when asked for. -/
def endEvents (t : Task) : List Event :=
  [Event.tickUpdate 0 (timeToMs t.duration)] ++
    (if t.notify == "end" || t.notify == "both" then
      [Event.notifyTask t.name "end"] else [])

/-- The full expected event trace of running the tasks `ts`, the first
at position `i`, each task contributing its begin events followed by its
end events. -/
def runTrace (gname : String) : Nat → List Task → List Event
  | _, [] => []
  | i, t :: rest => beginEvents gname i t ++ endEvents t ++ runTrace gname (i + 1) rest

/-- The engine state right after `processTask` has begun task `t` at
position `i` with start time `s`: polling on, not paused, duration and
remaining time both `timeToMs t.duration`. -/
def begunState (cat : List Group) (g : Group) (i : Nat) (s : Int)
    (t : Task) (cp : Option Checkpoint) (acc : List Event) : EngineState :=
  { catalog := cat
    activeGroup := GroupRef.grp g
    currentTaskIndex := i
    timerInterval := true
    isPaused := false
    startTime := s
    taskDurationMs := timeToMs t.duration
    remainingTimeMs := timeToMs t.duration
    checkpoint := cp
    events := acc }

/-- Fixture task used by witness and counterexample theorems. -/
def exTask1 : Task :=
  { name := "Warm-up", duration := "00:00:02", notify := "both", icon := "W" }

/-- Fixture task with notification policy `none`. -/
def exTask2 : Task :=
  { name := "Work Set", duration := "00:00:03", notify := "none", icon := "S" }

/-- Fixture group holding the two fixture tasks. -/
def exGroup : Group :=
  { id := "g1", name := "Demo", color := "#17a2b8", tasks := [exTask1, exTask2] }

/-- Fixture catalog holding the fixture group. -/
def exCat : List Group := [exGroup]

/-- Fixture running session: task 0 of the fixture group begun at time 0. -/
def exRun : EngineState := begunState exCat exGroup 0 0 exTask1 none []

/-- Fixture running session on task 1, begun at time 100. -/
def exRun1 : EngineState := begunState exCat exGroup 1 100 exTask2 none []

/-- Fixture checkpoint matching the worked recovery example of the spec:
not paused, 10000 ms remaining, last tick at epoch 0. -/
def exCpGood : Checkpoint :=
  { groupId := "g1", taskIndex := 0, paused := false, remaining := 10000,
    taskDuration := 20000, lastTick := 0 }

/-- Fixture corrupt checkpoint: task index out of range for `exGroup`. -/
def exCpBadIdx : Checkpoint :=
  { groupId := "g1", taskIndex := 5, paused := false, remaining := 1000,
    taskDuration := 2000, lastTick := 0 }

/-- Fixture corrupt checkpoint: group id absent from `exCat`. -/
def exCpNoGroup : Checkpoint :=
  { groupId := "nope", taskIndex := 0, paused := false, remaining := 1000,
    taskDuration := 2000, lastTick := 0 }

lemma drop_eq_cons_get {l : List Task} {i : Nat} {t : Task} {rest : List Task}
    (h : l.drop i = t :: rest) : l[i]? = some t := by
  have h0 := List.getElem?_drop l i 0
  rw [h] at h0
  simpa using h0.symm

lemma drop_eq_cons_length {l : List Task} {i : Nat} {t : Task} {rest : List Task}
    (h : l.drop i = t :: rest) : l.length = i + rest.length + 1 := by
  have hl := List.length_drop i l
  rw [h] at hl
  simp at hl
  have hi : i < l.length := by
    by_contra hcon
    have : l.drop i = [] := List.drop_eq_nil_of_le (by omega)
    rw [h] at this
    cases this
  omega

lemma drop_eq_cons_drop {l : List Task} {i : Nat} {t : Task} {rest : List Task}
    (h : l.drop i = t :: rest) : l.drop (i + 1) = rest := by
  have hd := List.drop_drop 1 i l
  rw [h] at hd
  simpa using hd.symm

lemma processTask_starts (now : Int) (st : EngineState) (g : Group) (t : Task)
    (hg : st.activeGroup = GroupRef.grp g) (hlt : st.currentTaskIndex < g.tasks.length)
    (hget : g.tasks[st.currentTaskIndex]? = some t) :
    processTask now st =
      { st with
        taskDurationMs := timeToMs t.duration
        remainingTimeMs := timeToMs t.duration
        startTime := now
        isPaused := false
        events := st.events ++ beginEvents g.name st.currentTaskIndex t
        timerInterval := true } := by
  simp [processTask, hg, hget, beginEvents, Nat.not_le.mpr hlt]

lemma processTask_finishes (now : Int) (st : EngineState) (g : Group)
    (hg : st.activeGroup = GroupRef.grp g) (hge : g.tasks.length ≤ st.currentTaskIndex) :
    processTask now st = stopTimer true st := by
  simp [processTask, hg, hge]

lemma timerTick_completes (cat : List Group) (g : Group) (i : Nat) (s n : Int)
    (t : Task) (cp : Option Checkpoint) (acc : List Event)
    (hget : g.tasks[i]? = some t)
    (hle : s + timeToMs t.duration ≤ n) :
    timerTick n (begunState cat g i s t cp acc) =
      some (processTask n
        { catalog := cat
          activeGroup := GroupRef.grp g
          currentTaskIndex := i + 1
          timerInterval := false
          isPaused := false
          startTime := s
          taskDurationMs := timeToMs t.duration
          remainingTimeMs := 0
          checkpoint := some
            { groupId := g.id, taskIndex := i, paused := false, remaining := 0,
              taskDuration := timeToMs t.duration, lastTick := n }
          events := acc ++ [Event.tickUpdate 0 (timeToMs t.duration)] ++
            (if t.notify == "end" || t.notify == "both" then
              [Event.notifyTask t.name "end"] else []) }) := by
  have hmax : max 0 (timeToMs t.duration - (n - s)) = 0 :=
    max_eq_left (by omega)
  simp [timerTick, begunState, hmax, hget]

lemma runSchedule_completes (g : Group) (rest : List Task) :
    ∀ (t : Task) (ns : List Int) (cat : List Group)
      (i : Nat) (s : Int) (cp : Option Checkpoint) (acc : List Event),
      g.tasks.drop i = t :: rest →
      schedOk s (t :: rest) ns = true →
      ∃ fin : EngineState,
        runSchedule ns (begunState cat g i s t cp acc) = some fin ∧
        fin.activeGroup = GroupRef.null ∧ fin.timerInterval = false ∧
        fin.checkpoint = none ∧
        fin.events = acc ++ endEvents t ++ runTrace g.name (i + 1) rest ++
          [Event.routineEnded true] := by
  induction rest with
  | nil =>
    intro t ns cat i s cp acc hdrop hsched
    match ns with
    | [] => simp [schedOk] at hsched
    | n :: ns1 =>
      match ns1 with
      | _ :: _ => simp [schedOk] at hsched
      | [] =>
        simp [schedOk] at hsched
        have hget := drop_eq_cons_get hdrop
        have hlen := drop_eq_cons_length hdrop
        simp only [List.length_nil] at hlen
        refine ⟨?_, ?_, ?_⟩
        · exact stopTimer true
            { catalog := cat
              activeGroup := GroupRef.grp g
              currentTaskIndex := i + 1
              timerInterval := false
              isPaused := false
              startTime := s
              taskDurationMs := timeToMs t.duration
              remainingTimeMs := 0
              checkpoint := some
                { groupId := g.id, taskIndex := i, paused := false, remaining := 0,
                  taskDuration := timeToMs t.duration, lastTick := n }
              events := acc ++ [Event.tickUpdate 0 (timeToMs t.duration)] ++
                (if t.notify == "end" || t.notify == "both" then
                  [Event.notifyTask t.name "end"] else []) }
        · have hge : g.tasks.length ≤ i + 1 := by omega
          simp only [runSchedule, timerTick_completes cat g i s n t cp acc hget hsched,
            Option.bind_some]
          rw [processTask_finishes _ _ g rfl hge]
        · simp [stopTimer, endEvents, runTrace]
  | cons t2 rest2 ih =>
    intro t ns cat i s cp acc hdrop hsched
    match ns with
    | [] => simp [schedOk] at hsched
    | n :: ns1 =>
      rw [show schedOk s (t :: t2 :: rest2) (n :: ns1) =
        (decide (s + timeToMs t.duration ≤ n) && schedOk n (t2 :: rest2) ns1) from rfl,
        Bool.and_eq_true, decide_eq_true_eq] at hsched
      obtain ⟨hle, hsched2⟩ := hsched
      have hget := drop_eq_cons_get hdrop
      have hlen := drop_eq_cons_length hdrop
      simp only [List.length_cons] at hlen
      have hdrop2 : g.tasks.drop (i + 1) = t2 :: rest2 := drop_eq_cons_drop hdrop
      have hget2 := drop_eq_cons_get hdrop2
      have hstep : runSchedule (n :: ns1) (begunState cat g i s t cp acc) =
          runSchedule ns1 (begunState cat g (i + 1) n t2
            (some { groupId := g.id, taskIndex := i, paused := false, remaining := 0,
                    taskDuration := timeToMs t.duration, lastTick := n })
            (acc ++ endEvents t ++ beginEvents g.name (i + 1) t2)) := by
        have hlt2 : i + 1 < g.tasks.length := by omega
        simp only [runSchedule, timerTick_completes cat g i s n t cp acc hget hle,
          Option.bind_some]
        rw [processTask_starts n _ g t2 rfl hlt2 hget2]
        simp [begunState, endEvents, beginEvents]
      obtain ⟨fin, hrun, h1, h2, h3, h4⟩ :=
        ih t2 ns1 cat (i + 1) n _ (acc ++ endEvents t ++ beginEvents g.name (i + 1) t2)
          hdrop2 hsched2
      refine ⟨fin, by rw [hstep]; exact hrun, h1, h2, h3, ?_⟩
      rw [h4]
      simp [runTrace]

/-- C4: for every engine state, `stopTimer` removes the persisted
checkpoint and halts polling and the session, and after it returns a
tick is a pure no-op: it changes no state, emits no notification and
writes no checkpoint. -/
theorem stopTimer_halts_ticks (finished : Bool) (st : EngineState) (now : Int) :
    (stopTimer finished st).checkpoint = none ∧
    (stopTimer finished st).timerInterval = false ∧
    (stopTimer finished st).activeGroup = GroupRef.null ∧
    timerTick now (stopTimer finished st) = some (stopTimer finished st) := by
  refine ⟨rfl, rfl, rfl, ?_⟩
  simp [timerTick, stopTimer]

/-- C9: the duration parser maps `"00:05:00"` to 300000 ms, `"1:02:03"`
to 3723000 ms and the non-numeric `"bad"` to 0; components are read left
to right as hours, minutes, seconds, a missing component counting as 0
(`"2"` is two hours) and a non-numeric component counting as 0
(`"bad:30:bad"` is thirty minutes). -/
theorem timeToMs_examples :
    timeToMs "00:05:00" = 300000 ∧
    timeToMs "1:02:03" = 3723000 ∧
    timeToMs "bad" = 0 ∧
    timeToMs "2" = 7200000 ∧
    timeToMs "bad:30:bad" = 1800000 ∧
    (∀ (text a b c : String) (hh mm ss : Int),
      jsSplit text ':' = [a, b, c] →
      jsNumber a = some hh → jsNumber b = some mm → jsNumber c = some ss →
      timeToMs text = (hh * 3600 + mm * 60 + ss) * 1000) := by
  refine ⟨rfl, rfl, rfl, rfl, rfl, ?_⟩
  intro text a b c hh mm ss hsplit ha hb hc
  simp only [timeToMs, hsplit, List.map_cons, List.map_nil]
  simp [ha, hb, hc, jsOrZero]

/-- C9 witness: the general left-to-right component mapping, applied to
the concrete text `"1:02:03"`. -/
theorem timeToMs_examples_witness :
    jsSplit "1:02:03" ':' = ["1", "02", "03"] ∧
    timeToMs "1:02:03" = (1 * 3600 + 2 * 60 + 3) * 1000 :=
  ⟨rfl, timeToMs_examples.2.2.2.2.2 "1:02:03" "1" "02" "03" 1 2 3 rfl rfl rfl rfl⟩

/-- C10 (amended): `stopTimer` always cancels polling, clears the
checkpoint and resets the session; the routine-ended report fires
exactly when `activeGroup !== null` at the call — when a session is
active, but also when a failed `startTimer`/`recoverTimer` lookup left
`activeGroup` holding `undefined` with no session running.  With
`activeGroup` null (the Idle state) no event is emitted, and since
`stopTimer` resets `activeGroup` to null a second `stopTimer` is always
a no-op. -/
theorem stopTimer_idempotent_public_interface (f f2 : Bool) (st : EngineState) :
    (stopTimer f st).events =
      st.events ++
        (if st.activeGroup ≠ GroupRef.null then [Event.routineEnded f] else []) ∧
    (stopTimer f st).checkpoint = none ∧
    (stopTimer f st).timerInterval = false ∧
    (stopTimer f st).activeGroup = GroupRef.null ∧
    stopTimer f2 (stopTimer f st) = stopTimer f st := by
  refine ⟨rfl, rfl, rfl, rfl, ?_⟩
  simp [stopTimer]

/-- C10 counterexample: a failed `startTimer` with an unknown group id —
a state reachable from boot — leaves `activeGroup` holding `undefined`,
so no session is active, yet `stopTimer` still fires the routine-ended
report: the callback does not fire only when a session was active. -/
theorem stopTimer_fires_routineEnded_without_session :
    (startTimer "nope" 0 (idleState exCat)).activeGroup = GroupRef.undef ∧
    (startTimer "nope" 0 (idleState exCat)).timerInterval = false ∧
    (stopTimer false (startTimer "nope" 0 (idleState exCat))).events =
      [Event.routineEnded false] := by
  refine ⟨rfl, rfl, ?_⟩
  decide

/-- C7 (amended): `togglePause` completes exactly when a session is
active; with `activeGroup` null the checkpoint write reads
`activeGroup.id` and throws.  The other engine entry points
(`startTimer`, `skipTask`, `stopTimer`, `recoverTimer`) contain no
unchecked property access and are total functions of the state. -/
theorem togglePause_throws_iff_no_session (now : Int) (st : EngineState) :
    (togglePause now st).isSome = st.activeGroup.isGrp := by
  cases hg : st.activeGroup <;> cases hp : st.isPaused <;>
    simp [togglePause, hg, hp, GroupRef.isGrp]

/-- C7 counterexample: in the Idle state `togglePause` hits the
`TypeError` (modelled by `none`), so not every engine entry point
completes without throwing in every engine state. -/
theorem togglePause_throws_when_idle :
    togglePause 0 (idleState []) = none := rfl

/-- C5 (amended): whenever the checkpoint's group is absent from the
catalog, or resolves to a group for which the task index is out of
range, `recoverTimer` returns failure, discards the persisted
checkpoint, starts no polling and touches no other session field — but
`activeGroup` is left holding the catalog lookup result: the falsy
`undefined` in the missing-group case, and the resolved group — not an
empty reference — in the out-of-range case. -/
theorem recover_invalid_discards_checkpoint (cp : Checkpoint) (now : Int)
    (st : EngineState)
    (hbad : ∀ g : Group,
      getGroupById st.catalog cp.groupId = some g → g.tasks[cp.taskIndex]? = none) :
    recoverTimer cp now st =
      (false,
        { st with
          activeGroup := GroupRef.ofFind (getGroupById st.catalog cp.groupId)
          checkpoint := none }) := by
  cases hg : getGroupById st.catalog cp.groupId with
  | none => simp [recoverTimer, hg, GroupRef.ofFind]
  | some g =>
    have h0 := hbad g hg
    simp [recoverTimer, hg, h0, GroupRef.ofFind]

/-- C5 witness: recovering the missing-group fixture checkpoint from the
boot state fails, clears the checkpoint and leaves `activeGroup` holding
the lookup's `undefined`. -/
theorem recover_invalid_discards_checkpoint_witness :
    (∀ g : Group,
      getGroupById (idleState exCat).catalog exCpNoGroup.groupId = some g →
        g.tasks[exCpNoGroup.taskIndex]? = none) ∧
    recoverTimer exCpNoGroup 7 (idleState exCat) =
      (false,
        { idleState exCat with
          activeGroup := GroupRef.ofFind (getGroupById (idleState exCat).catalog exCpNoGroup.groupId)
          checkpoint := none }) := by
  constructor
  · intro g hg
    simp [idleState, exCat, getGroupById, exCpNoGroup, exGroup] at hg
  · exact recover_invalid_discards_checkpoint exCpNoGroup 7 (idleState exCat)
      (by intro g hg; simp [idleState, exCat, getGroupById, exCpNoGroup, exGroup] at hg)

/-- C5 counterexample: recovering a checkpoint whose task index is out
of range fails and discards the checkpoint, but leaves `activeGroup`
holding the resolved group — the system is not left in the Idle state. -/
theorem recover_out_of_range_keeps_activeGroup :
    (recoverTimer exCpBadIdx 0 (idleState exCat)).1 = false ∧
    (recoverTimer exCpBadIdx 0 (idleState exCat)).2.activeGroup = GroupRef.grp exGroup := by
  constructor <;> rfl

/-- C6 (amended): `startTimer` on a group id that is missing from the
catalog, or whose group has no tasks, logs and aborts: it emits no
event, starts no polling, writes no checkpoint and leaves `startTime`,
`taskDurationMs` and `remainingTimeMs` untouched — but before the
validation it has already overwritten `activeGroup` with the lookup
result and reset `currentTaskIndex` to 0 and `isPaused` to `false`, so
from a state that is not Idle the session fields do change; from the
Idle state the only residual change is `activeGroup` moving from `null`
to the lookup's `undefined` (both falsy: still no session). -/
theorem startTimer_invalid_aborts (gid : String) (now : Int) (st : EngineState)
    (hbad : ∀ g : Group, getGroupById st.catalog gid = some g → g.tasks = []) :
    startTimer gid now st =
      { st with
        activeGroup := GroupRef.ofFind (getGroupById st.catalog gid)
        currentTaskIndex := 0
        isPaused := false } := by
  cases hg : getGroupById st.catalog gid with
  | none => simp [startTimer, hg, GroupRef.ofFind]
  | some g =>
    have h0 := hbad g hg
    simp [startTimer, hg, h0, GroupRef.ofFind]

/-- C6 witness: starting a missing group id from the boot state emits
nothing, starts nothing and writes nothing; the only residue is
`activeGroup` moving from `null` to the lookup's `undefined`. -/
theorem startTimer_invalid_aborts_witness :
    (∀ g : Group, getGroupById (idleState exCat).catalog "nope" = some g → g.tasks = []) ∧
    startTimer "nope" 3 (idleState exCat) =
      { idleState exCat with activeGroup := GroupRef.undef } := by
  have hbad : ∀ g : Group, getGroupById (idleState exCat).catalog "nope" = some g → g.tasks = [] := by
    intro g hg
    simp [idleState, exCat, getGroupById, exGroup] at hg
  refine ⟨hbad, ?_⟩
  rw [startTimer_invalid_aborts "nope" 3 (idleState exCat) hbad]
  rfl

/-- C6 counterexample: calling `startTimer` with an unknown group id
from a running session on task 1 resets `currentTaskIndex` to 0 and
drops the active group, so the session fields are not left exactly as
they were before the call. -/
theorem startTimer_invalid_clobbers_session :
    (startTimer "nope" 0 exRun1).currentTaskIndex ≠ exRun1.currentTaskIndex ∧
    (startTimer "nope" 0 exRun1).activeGroup ≠ exRun1.activeGroup := by
  constructor <;> decide

/-- C1: each tick of a running session recomputes the remaining time as
`max(0, taskDurationMs - (now - startTime))` from the recorded start
timestamp — never by subtracting a poll interval — emitting it and
checkpointing it; pausing leaves `remainingTimeMs` untouched, and
resuming re-derives `startTime` as `now - (taskDurationMs -
remainingMs)`, so the remaining time at the moment of resume equals the
remaining time at the moment of pause, for every pause time `t1` and
resume time `t2`. -/
theorem tick_recomputes_pause_resume_preserves
    (st : EngineState) (g : Group) (now t1 t2 : Int)
    (hg : st.activeGroup = GroupRef.grp g)
    (hp : st.isPaused = false)
    (hr : max 0 (st.taskDurationMs - (now - st.startTime)) ≠ 0) :
    timerTick now st = some
      { st with
        remainingTimeMs := max 0 (st.taskDurationMs - (now - st.startTime))
        events := st.events ++
          [Event.tickUpdate (max 0 (st.taskDurationMs - (now - st.startTime)))
            st.taskDurationMs]
        checkpoint := some
          { groupId := g.id, taskIndex := st.currentTaskIndex, paused := false,
            remaining := max 0 (st.taskDurationMs - (now - st.startTime)),
            taskDuration := st.taskDurationMs, lastTick := now } } ∧
    (∃ stp str : EngineState,
      togglePause t1 st = some (true, stp) ∧
      stp.remainingTimeMs = st.remainingTimeMs ∧
      togglePause t2 stp = some (false, str) ∧
      str.remainingTimeMs = st.remainingTimeMs ∧
      str.startTime = t2 - (st.taskDurationMs - st.remainingTimeMs)) := by
  refine ⟨by simp [timerTick, hg, hp, hr], ?_⟩
  refine ⟨{ st with
      isPaused := true
      timerInterval := false
      checkpoint := some
        { groupId := g.id, taskIndex := st.currentTaskIndex, paused := true,
          remaining := st.remainingTimeMs, taskDuration := st.taskDurationMs,
          lastTick := t1 } },
    { st with
      isPaused := false
      timerInterval := true
      startTime := t2 - (st.taskDurationMs - st.remainingTimeMs)
      checkpoint := some
        { groupId := g.id, taskIndex := st.currentTaskIndex, paused := false,
          remaining := st.remainingTimeMs, taskDuration := st.taskDurationMs,
          lastTick := t2 } },
    ?_, rfl, ?_, rfl, rfl⟩
  · simp [togglePause, hg, hp]
  · simp [togglePause, hg]

/-- C1 witness: on the fixture session started at time 0 with a 2000 ms
task, the tick at time 500 recomputes 1500 ms remaining, and pausing at
time 700 then resuming at time 9000 leaves 2000 ms remaining. -/
theorem tick_recomputes_pause_resume_preserves_witness :
    (∃ st1 : EngineState, timerTick 500 exRun = some st1 ∧
      st1.remainingTimeMs = 1500) ∧
    (∃ stp str : EngineState,
      togglePause 700 exRun = some (true, stp) ∧
      togglePause 9000 stp = some (false, str) ∧
      str.remainingTimeMs = 2000) := by
  obtain ⟨h1, stp, str, hp1, hp2, hp3, hp4, hp5⟩ :=
    tick_recomputes_pause_resume_preserves exRun exGroup 500 700 9000 rfl rfl
      (by decide)
  exact ⟨⟨_, h1, by decide⟩, stp, str, hp1, hp3, by rw [hp4]; decide⟩

/-- C2: recovering a non-paused checkpoint whose group and task index
resolve restores the session, deducts the time elapsed since the
checkpoint's `lastTick` from the remaining time (floored at 0),
re-derives `startTime` from the corrected remaining time, resumes
polling and reports success. -/
theorem recover_unpaused_deducts_elapsed
    (cp : Checkpoint) (now : Int) (st : EngineState) (g : Group) (t : Task)
    (hfind : getGroupById st.catalog cp.groupId = some g)
    (hget : g.tasks[cp.taskIndex]? = some t)
    (hpaused : cp.paused = false) :
    recoverTimer cp now st = (true,
      { st with
        activeGroup := GroupRef.grp g
        currentTaskIndex := cp.taskIndex
        taskDurationMs := cp.taskDuration
        remainingTimeMs := max 0 (cp.remaining - (now - cp.lastTick))
        isPaused := false
        startTime := now - (cp.taskDuration - max 0 (cp.remaining - (now - cp.lastTick)))
        timerInterval := true
        events := st.events ++
          [Event.displayTask t g.name (cp.taskIndex + 1),
           Event.tickUpdate cp.remaining cp.taskDuration] }) := by
  simp [recoverTimer, hfind, hget, hpaused]

/-- C2 witness: recovering the fixture checkpoint (`remainingMs = 10000`,
`lastTickEpochMs = 0`, not paused) at time 4000 succeeds, resumes
polling and leaves 6000 ms remaining. -/
theorem recover_unpaused_deducts_elapsed_witness :
    getGroupById (idleState exCat).catalog exCpGood.groupId = some exGroup ∧
    exGroup.tasks[exCpGood.taskIndex]? = some exTask1 ∧
    exCpGood.paused = false ∧
    (recoverTimer exCpGood 4000 (idleState exCat)).1 = true ∧
    (recoverTimer exCpGood 4000 (idleState exCat)).2.remainingTimeMs = 6000 ∧
    (recoverTimer exCpGood 4000 (idleState exCat)).2.timerInterval = true := by
  have h := recover_unpaused_deducts_elapsed exCpGood 4000 (idleState exCat)
    exGroup exTask1 rfl rfl rfl
  rw [h]
  exact ⟨rfl, rfl, rfl, rfl, by decide, rfl⟩

/-- C3: starting any catalog group with between 1 and 100 tasks from the
Idle state and letting one tick land at or after each task's expiry
drives the run to natural completion: the resulting trace visits the
tasks in order exactly once, showing for each task its display update
and — exactly when its policy is `start`/`both` — one start
notification, then its final zero tick and — exactly when its policy is
`end`/`both` — one end notification before the next task's start events,
finishing with the routine-ended report; afterwards no session, polling
or checkpoint remains. -/
theorem run_to_completion_trace
    (cat : List Group) (g : Group) (now : Int) (ns : List Int)
    (hfind : getGroupById cat g.id = some g)
    (hN1 : 1 ≤ g.tasks.length) (hN2 : g.tasks.length ≤ 100)
    (hsched : schedOk now g.tasks ns = true) :
    ∃ fin : EngineState,
      runSchedule ns (startTimer g.id now (idleState cat)) = some fin ∧
      fin.activeGroup = GroupRef.null ∧ fin.timerInterval = false ∧
      fin.checkpoint = none ∧
      fin.events = runTrace g.name 0 g.tasks ++ [Event.routineEnded true] := by
  obtain ⟨t0, rest, htasks⟩ : ∃ t0 rest, g.tasks = t0 :: rest := by
    cases h : g.tasks with
    | nil => rw [h] at hN1; simp at hN1
    | cons a l => exact ⟨a, l, rfl⟩
  have hget0 : g.tasks[0]? = some t0 := by rw [htasks]; simp
  have hne : ¬ g.tasks.length = 0 := by omega
  have hbegin : startTimer g.id now (idleState cat) =
      begunState cat g 0 now t0 none (beginEvents g.name 0 t0) := by
    have h1 : startTimer g.id now (idleState cat) = processTask now
        { idleState cat with
          activeGroup := GroupRef.grp g, currentTaskIndex := 0, isPaused := false } := by
      simp [startTimer, idleState, hfind, hne, GroupRef.ofFind]
    rw [h1, processTask_starts now _ g t0 rfl
      (show 0 < g.tasks.length from hN1) (show g.tasks[0]? = some t0 from hget0)]
    simp [idleState, begunState]
  have hdrop0 : g.tasks.drop 0 = t0 :: rest := by simp [htasks]
  have hsched0 : schedOk now (t0 :: rest) ns = true := by rw [← htasks]; exact hsched
  obtain ⟨fin, hrun, h1, h2, h3, h4⟩ :=
    runSchedule_completes g rest t0 ns cat 0 now none (beginEvents g.name 0 t0)
      hdrop0 hsched0
  refine ⟨fin, by rw [hbegin]; exact hrun, h1, h2, h3, ?_⟩
  rw [h4, htasks]
  simp [runTrace]

/-- C3 witness: running the two-task fixture group from the boot state,
with ticks at times 2000 and 5000, produces exactly the expected trace
and ends with no session, polling or checkpoint. -/
theorem run_to_completion_trace_witness :
    getGroupById exCat exGroup.id = some exGroup ∧
    schedOk 0 exGroup.tasks [2000, 5000] = true ∧
    (∃ fin : EngineState,
      runSchedule [2000, 5000] (startTimer exGroup.id 0 (idleState exCat)) = some fin ∧
      fin.activeGroup = GroupRef.null ∧ fin.timerInterval = false ∧
      fin.checkpoint = none ∧
      fin.events = runTrace exGroup.name 0 exGroup.tasks ++ [Event.routineEnded true]) := by
  refine ⟨rfl, by decide, ?_⟩
  exact run_to_completion_trace exCat exGroup 0 [2000, 5000] rfl
    (by decide) (by decide) (by decide)

lemma fdiv_natCast (a b : Nat) :
    Int.fdiv (a : Int) (b : Int) = ((a / b : Nat) : Int) := by
  cases a with
  | zero => simp [Int.fdiv]
  | succ m => rfl

lemma tmod_natCast (a b : Nat) :
    Int.tmod (a : Int) (b : Int) = ((a % b : Nat) : Int) := by
  cases a with
  | zero => simp [Int.tmod]
  | succ m => rfl

lemma jsIntToString_natCast (n : Nat) : jsIntToString (n : Int) = Nat.repr n := by
  rw [jsIntToString, if_neg (by omega)]
  norm_num

/-- Rendering a whole number of seconds through `msToTime` is exactly
the spec's zero-padded normalization of that second count. -/
lemma msToTime_natCast (ts : Nat) : msToTime ((ts : Int) * 1000) = specNormalize ts := by
  have e0 : ((ts : Int) * 1000 + 500) = ((ts * 1000 + 500 : Nat) : Int) := by
    push_cast; ring
  have f1 : Int.fdiv ((ts * 1000 + 500 : Nat) : Int) (1000 : Int) =
      (((ts * 1000 + 500) / 1000 : Nat) : Int) := fdiv_natCast _ 1000
  have e1 : Int.fdiv ((ts : Int) * 1000 + 500) (1000 : Int) = (ts : Int) := by
    rw [e0, f1]
    norm_cast
    omega
  have d1 : Int.fdiv (ts : Int) (3600 : Int) = ((ts / 3600 : Nat) : Int) :=
    fdiv_natCast ts 3600
  have m1 : Int.tmod (ts : Int) (3600 : Int) = ((ts % 3600 : Nat) : Int) :=
    tmod_natCast ts 3600
  have m2 : Int.fdiv ((ts % 3600 : Nat) : Int) (60 : Int) =
      ((ts % 3600 / 60 : Nat) : Int) := fdiv_natCast _ 60
  have s1 : Int.tmod (ts : Int) (60 : Int) = ((ts % 60 : Nat) : Int) :=
    tmod_natCast ts 60
  simp only [msToTime, specNormalize]
  rw [e1, d1, m1, m2, s1, jsIntToString_natCast, jsIntToString_natCast,
    jsIntToString_natCast]

/-- C8: for every valid `HH:MM:SS` text — one that splits at the colons
into three numeric components `h`, `m`, `s` — formatting the parsed
duration (`msToTime (timeToMs text)`) yields the zero-padded `HH:MM:SS`
normalization of the same total number of seconds. -/
theorem codec_round_trip (text a b c : String) (h m s : Nat)
    (hsplit : jsSplit text ':' = [a, b, c])
    (ha : jsNumber a = some (h : Int))
    (hb : jsNumber b = some (m : Int))
    (hc : jsNumber c = some (s : Int)) :
    msToTime (timeToMs text) = specNormalize (h * 3600 + m * 60 + s) := by
  have ht : timeToMs text = ((h * 3600 + m * 60 + s : Nat) : Int) * 1000 := by
    simp only [timeToMs, hsplit, List.map_cons, List.map_nil]
    simp [ha, hb, hc, jsOrZero]
  rw [ht, msToTime_natCast]

/-- C8 witness: `"01:02:03"` round-trips through the codec to the
normalization of 3723 seconds. -/
theorem codec_round_trip_witness :
    jsSplit "01:02:03" ':' = ["01", "02", "03"] ∧
    msToTime (timeToMs "01:02:03") = specNormalize 3723 := by
  refine ⟨rfl, ?_⟩
  have h := codec_round_trip "01:02:03" "01" "02" "03" 1 2 3 rfl rfl rfl rfl
  norm_num at h
  exact h

end RoutineFlow
